import Mathlib

/-!
Shallow embedding of src/index.ts of mocha-typescript: a decorator layer
that translates class and method markers into registrations against an
external mocha-style test runner. Definitions are translated from the
source file; line numbers in doc comments refer to src/index.ts.
-/

/-- Property keys of a JavaScript object: either an ordinary string name
or a primitive symbol, where symbols are distinct from every string key.
The active source (line 31) builds plain string keys; the Symbol-based
alternative on line 30 is commented out. -/
inductive PropKey where
  | str (s : String)
  | sym (id : Nat)
  deriving DecidableEq

/-- Key factory from line 31: nodeSymbol key is the plain string key
formed by prepending the text __mts_ to key. -/
def nodeSymbol (key : String) : PropKey :=
  PropKey.str ("__mts_" ++ key)

/-- Display-name tag key (line 33). -/
def testNameSymbol : PropKey := nodeSymbol "test"

/-- Instance tag key (line 34); defined by the source but unused by the
active code (its uses on lines 158 and 164 are commented out). -/
def instanceSymbol : PropKey := nodeSymbol "instance"

/-- Slow-threshold tag key (line 35). -/
def slowSymbol : PropKey := nodeSymbol "slow"

/-- Timeout tag key (line 36); the source itself spells the key text
timout. -/
def timeoutSymbol : PropKey := nodeSymbol "timout"

/-- Only-flag tag key (line 37). -/
def onlySymbol : PropKey := nodeSymbol "only"

/-- Skip-flag tag key (line 38). -/
def skipSymbol : PropKey := nodeSymbol "skip"

/-- Value stored under the slow or timeout tag key. The slow and timeout
markers store a number, but the slot can in principle hold any value;
applyTimes discriminates with a typeof check (lines 138 and 141), so the
model keeps numbers and lumps every non-number value into one case. -/
inductive TagVal where
  | num (t : Int)
  | other
  deriving DecidableEq

/-- A method-like value of the behavior table (a prototype member): its
declared parameter count (the JavaScript length of the function) and the
metadata slots stored on it under the five tag keys. A missing tag is
none, matching a property read that yields undefined; the skip and only
markers store the literal true, so those slots are Bool. -/
structure Behavior where
  arity : Nat
  testName : Option String
  skip : Bool
  only : Bool
  timeoutTag : Option TagVal
  slowTag : Option TagVal
  deriving DecidableEq

/-- JavaScript truthiness of a string-or-falsy value: undefined or false
(both modelled as none) and the empty string are falsy; every other
string is truthy. Used for the test of decoratorName on lines 172 and
189 and the test of testName on line 154. -/
def strTruthy : Option String → Bool
  | some s => !s.isEmpty
  | none => false

/-- First argument of the dual-form operations suite and test: either a
string or some non-string target value. -/
inductive JSArg where
  | str (s : String)
  | other
  deriving DecidableEq

/-- Models the expression that tests typeof target and keeps the string
(lines 61 and 185): the string itself when the argument is a string,
otherwise the falsy boolean false, modelled as none. -/
def stringAnd : JSArg → Option String
  | JSArg.str s => some s
  | JSArg.other => none

/-- Dispatch of suite on line 172: return decoratorName for the marker
when decoratorName is truthy, else apply result to the first argument at
once. A true result means the configure-then-apply form (a reusable
marker recording the name is returned); false means immediate
application to the first argument as the direct target. -/
def suiteUsesMarkerForm (target : JSArg) : Bool :=
  strTruthy (stringAnd target)

/-- Dispatch of test on line 189, same shape as the dispatch of suite. -/
def testUsesMarkerForm (target : JSArg) : Bool :=
  strTruthy (stringAnd target)

/-- The inner result closure of test (lines 186-188): stores the value
of decoratorName when it is truthy, else the property key, under the
display-name tag key of the behavior. decoratorName is the
string-or-false value computed from the first argument of test. -/
def testResult (decoratorName : Option String) (propertyKey : String)
    (m : Behavior) : Behavior :=
  ⟨m.arity,
    some (match decoratorName with
      | some s => if s.isEmpty then propertyKey else s
      | none => propertyKey),
    m.skip, m.only, m.timeoutTag, m.slowTag⟩

/-- The marker returned by slow (lines 196-200): stores the time under
the slow tag key. -/
def slowResult (time : Int) (m : Behavior) : Behavior :=
  ⟨m.arity, m.testName, m.skip, m.only, m.timeoutTag, some (TagVal.num time)⟩

/-- The marker returned by timeout (lines 206-210): stores the time
under the timeout tag key. -/
def timeoutResult (time : Int) (m : Behavior) : Behavior :=
  ⟨m.arity, m.testName, m.skip, m.only, some (TagVal.num time), m.slowTag⟩

/-- The only marker (lines 215-217): stores true under the only key. -/
def onlyMark (m : Behavior) : Behavior :=
  ⟨m.arity, m.testName, m.skip, true, m.timeoutTag, m.slowTag⟩

/-- The skip marker (lines 222-224): stores true under the skip key. -/
def skipMark (m : Behavior) : Behavior :=
  ⟨m.arity, m.testName, true, m.only, m.timeoutTag, m.slowTag⟩

/-- Calling convention selected for a user hook by its declared
parameter count: sync means the hook is invoked with no arguments and
its return value is forwarded to the runner; callback means the hook is
invoked with the single completion callback supplied by the runner. -/
inductive HookConv where
  | sync
  | callback
  deriving DecidableEq

/-- Arity dispatch used for every hook (lines 67, 78, 93 and 111): a
declared parameter count above zero selects the callback convention. -/
def hookConv (arity : Nat) : HookConv :=
  if 0 < arity then HookConv.callback else HookConv.sync

/-- Runner entry point a case is registered through, selected on lines
150-152. -/
inductive EntryPoint where
  | normal
  | skip
  | only
  deriving DecidableEq

/-- One case registration produced by the suite translator: the display
name passed to the runner, the entry point chosen from the skip and only
flags, whether the registered callback declares a done parameter (the
arity 1 branch on lines 161-166) and the underlying behavior. -/
structure CaseReg where
  name : String
  entry : EntryPoint
  usesDone : Bool
  method : Behavior
  deriving DecidableEq

/-- Loop body of case enumeration (lines 127-168) for one own
enumerable member of the behavior table. guardHolds is the value of the
instanceof-Function test of the prototype object in the guard on line
129; the guard also requires hasOwnProperty, which holds for every entry
of the own member list this model iterates. Returns the registration
performed for this member, or none when the member is skipped. -/
def registerOne (guardHolds : Bool) (kv : String × Behavior) : Option CaseReg :=
  if guardHolds then
    let m := kv.2
    let testName := m.testName
    let entry := if m.skip then EntryPoint.skip
      else if m.only then EntryPoint.only
      else EntryPoint.normal
    if strTruthy testName then
      if m.arity = 0 then
        some ⟨testName.getD "", entry, false, m⟩
      else if m.arity = 1 then
        some ⟨testName.getD "", entry, true, m⟩
      else none
    else none
  else none

/-- The behavior table (prototype) of a suite class: whether the
prototype object itself is an instance of Function (the line 129 guard
tests exactly this; it is false for the prototype of an ordinary class),
the optional instance-level before and after hooks given by their
declared parameter count, and the own enumerable members in iteration
order. -/
structure Proto where
  isFunctionInstance : Bool
  before : Option Nat
  after : Option Nat
  members : List (String × Behavior)
  deriving DecidableEq

/-- A suite class: its identifier (the name of the constructor, used on
line 63 as fallback suite name), optional static before and after hooks
given by their declared parameter count, and its prototype. -/
structure SuiteDef where
  name : String
  before : Option Nat
  after : Option Nat
  proto : Proto
  deriving DecidableEq

/-- The registration the suite translator performs against the runner:
the suite name passed to describe, the calling conventions of the static
hooks registered through the before-all and after-all entry points of
the runner (none when the class has no such hook, lines 66-87), and the
list of case registrations in member order. The per-case beforeEach and
afterEach wrappers, which are registered unconditionally, are modelled
separately as runtime traces below. -/
structure SuiteReg where
  name : String
  beforeAllConv : Option HookConv
  afterAllConv : Option HookConv
  cases : List CaseReg
  deriving DecidableEq

/-- The inner result function of suite (lines 62-171) applied to a
class: the suite name is decoratorName when truthy, else the class
identifier (line 63); static hooks are registered with their
arity-selected conventions (lines 66-87); the member loop of lines
127-169 produces the case list. -/
def suiteResult (decoratorName : Option String) (d : SuiteDef) : SuiteReg :=
  ⟨(match decoratorName with
      | some s => if s.isEmpty then d.name else s
      | none => d.name),
    d.before.map hookConv,
    d.after.map hookConv,
    d.proto.members.filterMap (registerOne d.proto.isFunctionInstance)⟩

/-- Replace the member list of a suite definition; helper for stating
claims about the treatment of an individual member. -/
def withMembers : SuiteDef → List (String × Behavior) → SuiteDef
  | ⟨n, b, a, ⟨g, pb, pa, _⟩⟩, ms => ⟨n, b, a, ⟨g, pb, pa, ms⟩⟩

/-- The mutable adapter state across one case: the stored instance
reference (the instance variable declared on line 65; none models
undefined) and a counter supplying identities for freshly constructed
instances. -/
structure RunState where
  inst : Option Nat
  fresh : Nat
  deriving DecidableEq

/-- Observable runtime events of the per-case protocol: construction of
a fresh instance, invocation of the instance-level before hook bound to
an instance, execution of a case body with the stored reference as its
receiver, clearing of the stored reference, and invocation of the
instance-level after hook bound to a saved reference. -/
inductive Ev where
  | construct (i : Nat)
  | beforeHook (boundTo : Nat) (conv : HookConv)
  | body (thisArg : Option Nat)
  | clear
  | afterHook (boundTo : Option Nat) (conv : HookConv)
  deriving DecidableEq

/-- The beforeEach wrapper registered on line 105: it always constructs
a fresh instance and stores it (lines 89-91); when the prototype has a
before hook, the hook is then invoked bound to that instance, with the
convention selected by its arity (lines 92-104). -/
def beforeEachRun (p : Proto) (st : RunState) : RunState × List Ev :=
  match p.before with
  | none => (⟨some st.fresh, st.fresh + 1⟩, [Ev.construct st.fresh])
  | some a => (⟨some st.fresh, st.fresh + 1⟩,
      [Ev.construct st.fresh, Ev.beforeHook st.fresh (hookConv a)])

/-- Execution of a registered case body (lines 156-166): the method is
applied with the stored instance reference as its receiver. -/
def bodyRun (st : RunState) : RunState × List Ev :=
  (st, [Ev.body st.inst])

/-- The afterEach wrapper registered on line 125: without an after hook
the stored reference is simply cleared (lines 107-109); with an after
hook the reference is first saved, then the stored reference is cleared,
and only then is the hook invoked bound to the saved reference (lines
110-124). -/
def afterEachRun (p : Proto) (st : RunState) : RunState × List Ev :=
  match p.after with
  | none => (⟨none, st.fresh⟩, [Ev.clear])
  | some a => (⟨none, st.fresh⟩, [Ev.clear, Ev.afterHook st.inst (hookConv a)])

/-- One case as scheduled by the host runner: the beforeEach wrapper,
then the case body, then the afterEach wrapper. -/
def runOneCase (p : Proto) (st : RunState) : RunState × List Ev :=
  let r1 := beforeEachRun p st
  let r2 := bodyRun r1.1
  let r3 := afterEachRun p r2.1
  (r3.1, r1.2 ++ r2.2 ++ r3.2)

/-- Discriminator for after-hook invocation events. -/
def isAfterHookEv : Ev → Bool
  | Ev.afterHook _ _ => true
  | _ => false

/-- Formal reading of the ordering part of claim C2: every clearing of
the stored reference occurs strictly later in the trace than every
invocation of the after hook. -/
def clearOnlyAfterHook (tr : List Ev) : Prop :=
  ∀ i j : Fin tr.length, tr.get i = Ev.clear →
    isAfterHookEv (tr.get j) = true → (j : Nat) < (i : Nat)

/-- Calls received by the configuration handle passed to applyTimes. -/
inductive ConfigCall where
  | timeoutCall (t : Int)
  | slowCall (t : Int)
  deriving DecidableEq

/-- applyTimes (lines 135-145): reads the timeout tag and the slow tag
of the method; a value of number type is forwarded through the timeout
setter and then through the slow setter of the handle; any other stored
value produces no call for that tag. The returned list records the
calls the handle receives, in order. -/
def applyTimes (m : Behavior) : List ConfigCall :=
  let timeoutValue := m.timeoutTag
  let slowValue := m.slowTag
  (match timeoutValue with
    | some (TagVal.num t) => [ConfigCall.timeoutCall t]
    | _ => []) ++
  (match slowValue with
    | some (TagVal.num t) => [ConfigCall.slowCall t]
    | _ => [])

/-- The Calculator scenario of the spec: an ordinary class (so its
prototype is not an instance of Function) named Calculator with one
arity-0 method tagged with display name adds numbers and no other
tags. -/
def calculatorDef : SuiteDef :=
  ⟨"Calculator", none, none,
    ⟨false, none, none,
      [("addsNumbers", ⟨0, some "adds numbers", false, false, none, none⟩)]⟩⟩

/-- Claim C1. The claim says every own member with a truthy display-name
tag and arity 0 or 1 is registered as a case, and in particular the
Calculator scenario yields one case named adds numbers. The code does
the opposite: the guard on line 129 tests whether the prototype object
itself is an instance of Function, which is false for the prototype of
any ordinary class, so every member is skipped and the case list is
empty. First conjunct: whenever the prototype is not an instance of
Function, no case at all is registered. Second conjunct: the Calculator
scenario registers the suite under the name Calculator with an empty
case list. -/
theorem suite_registers_no_cases_for_class_prototype :
    (∀ (dn : Option String) (d : SuiteDef), d.proto.isFunctionInstance = false →
      (suiteResult dn d).cases = []) ∧
    suiteResult none calculatorDef = ⟨"Calculator", none, none, []⟩ := by
  constructor
  · intro dn d h
    have hnone : ∀ kv ∈ d.proto.members,
        registerOne d.proto.isFunctionInstance kv = none := by
      intro kv _
      rw [h]
      rfl
    simp [suiteResult, List.filterMap_eq_nil_iff]
    intro key m hm
    exact hnone (key, m) hm
  · rfl

/-- Witness for claim C1: the general part of the theorem applied to the
Calculator definition. -/
theorem suite_registers_no_cases_witness :
    (suiteResult none calculatorDef).cases = [] :=
  suite_registers_no_cases_for_class_prototype.1 none calculatorDef rfl

/-- Counterexample for claim C3. The claim says the configure-then-apply
form is selected if and only if the first argument is of string type.
The empty string is of string type, yet its JavaScript truthiness is
false, so the dispatch of both suite and test treats it as a direct
target and applies the marker immediately instead of returning a
reusable marker. -/
theorem empty_string_selects_direct_form_cex :
    suiteUsesMarkerForm (JSArg.str "") = false ∧
    testUsesMarkerForm (JSArg.str "") = false := by decide

/-- Claim C3 as amended: the configure-then-apply form is selected if
and only if the first argument is a nonempty string; the empty string,
like every non-string, triggers immediate application to the first
argument as the direct target. The suite and test dispatches agree on
every argument. -/
theorem marker_form_iff_nonempty_string :
    ∀ a : JSArg,
      suiteUsesMarkerForm a = testUsesMarkerForm a ∧
      (suiteUsesMarkerForm a = true ↔ ∃ s, a = JSArg.str s ∧ s.isEmpty = false) := by
  intro a
  cases a with
  | str s =>
      refine ⟨rfl, ?_⟩
      simp [suiteUsesMarkerForm, stringAnd, strTruthy]
  | other =>
      refine ⟨rfl, ?_⟩
      simp [suiteUsesMarkerForm, stringAnd, strTruthy]

/-- Witness for claim C3: the marker form is selected for the nonempty
string Calculator. -/
theorem marker_form_iff_nonempty_string_witness :
    suiteUsesMarkerForm (JSArg.str "Calculator") = true :=
  (marker_form_iff_nonempty_string (JSArg.str "Calculator")).2.mpr
    ⟨"Calculator", rfl, by decide⟩

/-- Claim C6: a member of the behavior table that carries a display-name
tag but has declared parameter count 2 or greater contributes no case
registration at all; removing it from the member list leaves the case
list unchanged. The translator is a total function, so no warning or
error is produced either. -/
theorem arity_two_or_more_registers_nothing :
    ∀ (dn : Option String) (d : SuiteDef) (pre post : List (String × Behavior))
      (key : String) (m : Behavior), 2 ≤ m.arity →
      (suiteResult dn (withMembers d (pre ++ (key, m) :: post))).cases =
        (suiteResult dn (withMembers d (pre ++ post))).cases := by
  intro dn d pre post key m h
  have h0 : ¬ m.arity = 0 := by omega
  have h1 : ¬ m.arity = 1 := by omega
  obtain ⟨n, b, a, g, pb, pa, _⟩ := d
  simp [withMembers, suiteResult, List.filterMap_append, registerOne, h0, h1]

/-- Witness for claim C6: a concrete display-name-tagged member of
arity 2 leaves the case list of a concrete one-member suite unchanged. -/
theorem arity_two_or_more_registers_nothing_witness :
    (suiteResult none (withMembers ⟨"S", none, none, ⟨true, none, none, []⟩⟩
        ([] ++ ("two", (⟨2, some "t", false, false, none, none⟩ : Behavior)) ::
          [("ok", (⟨0, some "u", false, false, none, none⟩ : Behavior))]))).cases =
      (suiteResult none (withMembers ⟨"S", none, none, ⟨true, none, none, []⟩⟩
        ([] ++ [("ok", (⟨0, some "u", false, false, none, none⟩ : Behavior))]))).cases :=
  arity_two_or_more_registers_nothing none ⟨"S", none, none, ⟨true, none, none, []⟩⟩
    [] [("ok", ⟨0, some "u", false, false, none, none⟩)] "two"
    ⟨2, some "t", false, false, none, none⟩ (by decide)

/-- Claim C7: a member of the behavior table that carries no
display-name tag is never registered as a case, regardless of any
slow, timeout, only or skip tags it carries; removing it from the
member list leaves the case list unchanged. -/
theorem untagged_member_never_registered :
    ∀ (dn : Option String) (d : SuiteDef) (pre post : List (String × Behavior))
      (key : String) (m : Behavior), m.testName = none →
      (suiteResult dn (withMembers d (pre ++ (key, m) :: post))).cases =
        (suiteResult dn (withMembers d (pre ++ post))).cases := by
  intro dn d pre post key m h
  obtain ⟨n, b, a, g, pb, pa, _⟩ := d
  simp [withMembers, suiteResult, List.filterMap_append, registerOne, h, strTruthy]

/-- Witness for claim C7: a concrete untagged member that carries slow,
timeout, only and skip tags leaves the case list of a concrete suite
unchanged. -/
theorem untagged_member_never_registered_witness :
    (suiteResult none (withMembers ⟨"S", none, none, ⟨true, none, none, []⟩⟩
      ([] ++ ("m", (⟨0, none, true, true, some (TagVal.num 5), some (TagVal.num 6)⟩ : Behavior)) :: []))).cases =
    (suiteResult none (withMembers ⟨"S", none, none, ⟨true, none, none, []⟩⟩
      ([] ++ []))).cases :=
  untagged_member_never_registered none ⟨"S", none, none, ⟨true, none, none, []⟩⟩
    [] [] "m" ⟨0, none, true, true, some (TagVal.num 5), some (TagVal.num 6)⟩ rfl

/-- Counterexample for claim C2. The claim says the stored instance
reference is cleared only after the matching after hook has completed.
In the code (lines 112-121) the reference is saved, the stored
reference is cleared, and only then is the after hook invoked on the
saved reference, so in the trace of a concrete suite with an arity-0
before hook and an arity-0 after hook the clear event precedes the
after-hook event. -/
theorem instance_cleared_before_after_hook_cex :
    (⟨true, some 0, some 0, []⟩ : Proto).before = some 0 ∧
    (⟨true, some 0, some 0, []⟩ : Proto).after = some 0 ∧
    ¬ clearOnlyAfterHook (runOneCase ⟨true, some 0, some 0, []⟩ ⟨none, 0⟩).2 := by
  refine ⟨rfl, rfl, ?_⟩
  unfold clearOnlyAfterHook
  decide

/-- Claim C2 as amended: for every suite with an instance-level before
hook of arity 0, the stored instance reference is nonempty whenever a
case body executes; and when an instance-level after hook exists, the
stored reference is cleared immediately before the after hook is
invoked, with the hook invoked bound to the saved reference, which is
exactly the instance the case body used, and the trace ends there. -/
theorem instance_lifecycle_amended :
    ∀ (p : Proto) (st : RunState) (a : Nat), p.before = some 0 → p.after = some a →
      (∀ o, Ev.body o ∈ (runOneCase p st).2 → o ≠ none) ∧
      (∃ i, Ev.body (some i) ∈ (runOneCase p st).2 ∧
        [Ev.clear, Ev.afterHook (some i) (hookConv a)] <:+ (runOneCase p st).2) := by
  intro p st a hb ha
  have htr : (runOneCase p st).2 =
      [Ev.construct st.fresh, Ev.beforeHook st.fresh (hookConv 0),
        Ev.body (some st.fresh), Ev.clear,
        Ev.afterHook (some st.fresh) (hookConv a)] := by
    simp [runOneCase, beforeEachRun, bodyRun, afterEachRun, hb, ha]
  rw [htr]
  constructor
  · intro o ho
    simp only [List.mem_cons, List.not_mem_nil, or_false] at ho
    rcases ho with h | h | h | h | h <;> simp_all
  · refine ⟨st.fresh, by simp, ?_⟩
    exact ⟨[Ev.construct st.fresh, Ev.beforeHook st.fresh (hookConv 0),
      Ev.body (some st.fresh)], rfl⟩

/-- Witness for the amended claim C2: the theorem applied to a concrete
suite with an arity-0 before hook and an arity-2 after hook, starting
from the empty adapter state. -/
theorem instance_lifecycle_amended_witness :
    (∀ o, Ev.body o ∈ (runOneCase ⟨true, some 0, some 2, []⟩ ⟨none, 0⟩).2 → o ≠ none) ∧
    (∃ i, Ev.body (some i) ∈ (runOneCase ⟨true, some 0, some 2, []⟩ ⟨none, 0⟩).2 ∧
      [Ev.clear, Ev.afterHook (some i) (hookConv 2)] <:+
        (runOneCase ⟨true, some 0, some 2, []⟩ ⟨none, 0⟩).2) :=
  instance_lifecycle_amended ⟨true, some 0, some 2, []⟩ ⟨none, 0⟩ 2 rfl rfl

/-- Claim C4: for each of the four hooks (static before-all, static
after-all, instance before-each, instance after-each), a declared
parameter count of zero selects the sync convention, in which the hook
is invoked with no arguments and its return value is forwarded to the
runner, while a count of one or more selects the callback convention,
in which the hook is invoked with the single completion callback
supplied by the runner. For the instance hooks the statement also fixes
the receiver: the before hook is bound to the freshly constructed
instance and the after hook to the saved stored reference. -/
theorem hook_arity_selects_convention :
    ∀ (dn : Option String) (d : SuiteDef) (st : RunState) (a : Nat),
      (d.before = some a → (suiteResult dn d).beforeAllConv =
        some (if 0 < a then HookConv.callback else HookConv.sync)) ∧
      (d.after = some a → (suiteResult dn d).afterAllConv =
        some (if 0 < a then HookConv.callback else HookConv.sync)) ∧
      (d.proto.before = some a → (beforeEachRun d.proto st).2 =
        [Ev.construct st.fresh,
          Ev.beforeHook st.fresh (if 0 < a then HookConv.callback else HookConv.sync)]) ∧
      (d.proto.after = some a → (afterEachRun d.proto st).2 =
        [Ev.clear,
          Ev.afterHook st.inst (if 0 < a then HookConv.callback else HookConv.sync)]) := by
  intro dn d st a
  refine ⟨?_, ?_, ?_, ?_⟩ <;> intro h <;>
    simp [suiteResult, beforeEachRun, afterEachRun, h, hookConv]

/-- Witness for claim C4: a concrete suite with a static before hook of
arity 1, a static after hook of arity 0, an instance before hook of
arity 0 and an instance after hook of arity 3, evaluated from a
concrete adapter state. -/
theorem hook_arity_selects_convention_witness :
    (suiteResult none ⟨"W", some 1, some 0, ⟨false, some 0, some 3, []⟩⟩).beforeAllConv =
      some HookConv.callback ∧
    (suiteResult none ⟨"W", some 1, some 0, ⟨false, some 0, some 3, []⟩⟩).afterAllConv =
      some HookConv.sync ∧
    (beforeEachRun (⟨false, some 0, some 3, []⟩ : Proto) ⟨some 7, 3⟩).2 =
      [Ev.construct 3, Ev.beforeHook 3 HookConv.sync] ∧
    (afterEachRun (⟨false, some 0, some 3, []⟩ : Proto) ⟨some 7, 3⟩).2 =
      [Ev.clear, Ev.afterHook (some 7) HookConv.callback] :=
  ⟨(hook_arity_selects_convention none ⟨"W", some 1, some 0, ⟨false, some 0, some 3, []⟩⟩
      ⟨some 7, 3⟩ 1).1 rfl,
    (hook_arity_selects_convention none ⟨"W", some 1, some 0, ⟨false, some 0, some 3, []⟩⟩
      ⟨some 7, 3⟩ 0).2.1 rfl,
    (hook_arity_selects_convention none ⟨"W", some 1, some 0, ⟨false, some 0, some 3, []⟩⟩
      ⟨some 7, 3⟩ 0).2.2.1 rfl,
    (hook_arity_selects_convention none ⟨"W", some 1, some 0, ⟨false, some 0, some 3, []⟩⟩
      ⟨some 7, 3⟩ 3).2.2.2 rfl⟩

/-- Counterexample for claim C5. The claim says every behavior carrying
a display-name tag and a skip-flag tag is registered through the skip
entry point. A behavior of declared parameter count 2 carrying a
display-name tag, a skip tag and an only tag is not registered at all:
the case list of a one-member suite holding it, with the line 129 guard
passing, is empty. -/
theorem skip_tagged_arity_two_not_registered_cex :
    strTruthy (⟨2, some "t", true, true, none, none⟩ : Behavior).testName = true ∧
    (⟨2, some "t", true, true, none, none⟩ : Behavior).skip = true ∧
    (suiteResult none ⟨"S", none, none,
      ⟨true, none, none, [("m", ⟨2, some "t", true, true, none, none⟩)]⟩⟩).cases = [] := by
  refine ⟨by decide, rfl, by decide⟩

/-- Claim C5 as amended: among the members the suite translator
actually registers, that is those on a behavior table passing the
line 129 guard, carrying a truthy display-name tag and declaring at
most one parameter, a skip-flag tag routes the registration through the
skip entry point even when an only-flag tag is also present; an
only-flag tag without a skip-flag tag routes through the exclusive-run
entry point; and with neither flag the normal entry point is used. -/
theorem entry_point_routing_for_registered_cases :
    ∀ (dn : Option String) (d : SuiteDef) (key : String) (m : Behavior),
      (key, m) ∈ d.proto.members →
      d.proto.isFunctionInstance = true →
      strTruthy m.testName = true →
      m.arity ≤ 1 →
      ∃ c ∈ (suiteResult dn d).cases,
        c.method = m ∧
        c.entry = (if m.skip then EntryPoint.skip
          else if m.only then EntryPoint.only else EntryPoint.normal) := by
  intro dn d key m hmem hg ht ha
  have hreg : registerOne d.proto.isFunctionInstance (key, m) =
      some ⟨m.testName.getD "",
        (if m.skip then EntryPoint.skip
          else if m.only then EntryPoint.only else EntryPoint.normal),
        decide (m.arity = 1), m⟩ := by
    rcases Nat.le_one_iff_eq_zero_or_eq_one.mp ha with h0 | h1
    · simp [registerOne, hg, ht, h0]
    · simp [registerOne, hg, ht, h1]
  refine ⟨⟨m.testName.getD "",
      (if m.skip then EntryPoint.skip
        else if m.only then EntryPoint.only else EntryPoint.normal),
      decide (m.arity = 1), m⟩, ?_, rfl, rfl⟩
  simp only [suiteResult]
  exact List.mem_filterMap.mpr ⟨(key, m), hmem, hreg⟩

/-- Witness for the amended claim C5: a concrete arity-0 behavior
carrying a display-name tag, a skip tag and an only tag, inside a
one-member suite whose behavior table passes the guard, is registered
and routed through the skip entry point. -/
theorem entry_point_routing_witness :
    ∃ c ∈ (suiteResult none ⟨"S", none, none,
        ⟨true, none, none, [("m", ⟨0, some "t", true, true, none, none⟩)]⟩⟩).cases,
      c.method = (⟨0, some "t", true, true, none, none⟩ : Behavior) ∧
      c.entry = EntryPoint.skip :=
  entry_point_routing_for_registered_cases none
    ⟨"S", none, none, ⟨true, none, none, [("m", ⟨0, some "t", true, true, none, none⟩)]⟩⟩
    "m" ⟨0, some "t", true, true, none, none⟩ (by simp) rfl (by decide) (by decide)

/-- Counterexample for claim C8. The claim says metadata tags are
stored under keys that cannot collide with any ordinary user-defined
property. The active key factory (line 31, with the Symbol alternative
of line 30 commented out) yields plain string keys, so the user-defined
property name __mts_test is exactly the display-name tag key and the
two collide. -/
theorem tag_key_collides_with_user_property_cex :
    ¬ (∀ s : String, PropKey.str s ≠ testNameSymbol) :=
  fun h => h "__mts_test" rfl

/-- Claim C8 as amended: each of the five metadata tag keys is the
plain string obtained by prepending __mts_ to its kind, so a
user-defined string property collides with a tag key exactly when its
name is one of the five reserved strings __mts_test, __mts_slow,
__mts_timout, __mts_only and __mts_skip; every other property name is
collision free. -/
theorem tag_keys_collide_only_on_reserved_names :
    ∀ s : String,
      (PropKey.str s = testNameSymbol ∨ PropKey.str s = slowSymbol ∨
        PropKey.str s = timeoutSymbol ∨ PropKey.str s = onlySymbol ∨
        PropKey.str s = skipSymbol) ↔
      (s = "__mts_test" ∨ s = "__mts_slow" ∨ s = "__mts_timout" ∨
        s = "__mts_only" ∨ s = "__mts_skip") := by
  intro s
  simp [testNameSymbol, slowSymbol, timeoutSymbol, onlySymbol, skipSymbol, nodeSymbol]

/-- Witness for the amended claim C8: the ordinary property name
payload does not collide with the display-name tag key. -/
theorem tag_keys_collide_witness :
    ¬ (PropKey.str "payload" = testNameSymbol ∨ PropKey.str "payload" = slowSymbol ∨
        PropKey.str "payload" = timeoutSymbol ∨ PropKey.str "payload" = onlySymbol ∨
        PropKey.str "payload" = skipSymbol) :=
  fun h => by
    have := (tag_keys_collide_only_on_reserved_names "payload").mp h
    simp at this

/-- Claim C9: applying the test marker with name n1 and then with name
n2, both names nonempty so that each call takes the configure-then-apply
form, leaves the display-name tag equal to n2. The tag occupies the
single slot under the display-name key, so at most one display-name tag
exists per behavior and the last write wins. -/
theorem display_name_last_write_wins :
    ∀ (m : Behavior) (key n1 n2 : String),
      n1.isEmpty = false → n2.isEmpty = false →
      (testResult (some n2) key (testResult (some n1) key m)).testName = some n2 := by
  intro m key n1 n2 h1 h2
  simp [testResult, h2]

/-- Witness for claim C9: marking a concrete behavior with the name
first and then with the name second leaves the tag equal to second. -/
theorem display_name_last_write_wins_witness :
    (testResult (some "second") "k"
      (testResult (some "first") "k" ⟨0, none, false, false, none, none⟩)).testName =
      some "second" :=
  display_name_last_write_wins ⟨0, none, false, false, none, none⟩ "k"
    "first" "second" (by decide) (by decide)

/-- Claim C10: a timeout setter call appears only for a stored timeout
tag of number type and a slow setter call only for a stored slow tag of
number type, so a tag holding a non-number value produces no
configuration call, and applyTimes is a total function so no error is
produced; and when both tags hold numbers, the handle receives the
timeout call and then the slow call, in that order. -/
theorem applyTimes_typeof_gate_and_order :
    ∀ m : Behavior,
      (∀ t, ConfigCall.timeoutCall t ∈ applyTimes m →
        m.timeoutTag = some (TagVal.num t)) ∧
      (∀ t, ConfigCall.slowCall t ∈ applyTimes m →
        m.slowTag = some (TagVal.num t)) ∧
      (∀ t s, m.timeoutTag = some (TagVal.num t) → m.slowTag = some (TagVal.num s) →
        applyTimes m = [ConfigCall.timeoutCall t, ConfigCall.slowCall s]) := by
  intro m
  obtain ⟨ar, tn, sk, onl, tt, sl⟩ := m
  rcases tt with _ | (t0 | _) <;> rcases sl with _ | (s0 | _) <;>
    refine ⟨?_, ?_, ?_⟩ <;> intros <;> simp_all [applyTimes]

/-- Witness for claim C10: a concrete behavior with numeric timeout tag
100 and numeric slow tag 50 yields exactly the timeout call followed by
the slow call. -/
theorem applyTimes_typeof_gate_witness :
    applyTimes ⟨0, none, false, false, some (TagVal.num 100), some (TagVal.num 50)⟩ =
      [ConfigCall.timeoutCall 100, ConfigCall.slowCall 50] :=
  (applyTimes_typeof_gate_and_order
    ⟨0, none, false, false, some (TagVal.num 100), some (TagVal.num 50)⟩).2.2
    100 50 rfl rfl
